import Mathlib

/-!
Verification of the Cherry OpenFlow controller core: a shallow embedding of
the `l2switch` policy (flood, installFlow, setFlowRule, switching,
localSwitching, ProcessPacket, ProcessEvent, cleanup, removeAllFlows,
removeFlowRules, removeFlow) and of the device `Manager` send paths
(handleHelloMessage, InstallFlowRule, RemoveFlowRule, SendPacketOut),
with theorems settling the specification claims about them.

Message emission is modelled as a trace: each function returns the list of
messages it handed to `SendMessage`, in order, together with a Boolean that
is `true` exactly when the Go function returns a nil error.  Send failures
are modelled by an oracle `sendOk : Msg → Bool` in the environment; factory
constructors (`NewMatch`, `NewAction`, ...) and `MarshalBinary`, which the
policy only propagates as plumbing errors, are modelled as infallible.
-/

namespace Cherry

/-- A MAC address, as its list of bytes (`net.HardwareAddr`). -/
abbrev MAC := List Nat

/-- The broadcast MAC address `FF:FF:FF:FF:FF:FF`. -/
def broadcastMAC : MAC := [0xFF, 0xFF, 0xFF, 0xFF, 0xFF, 0xFF]

/-- A `network.Device`: a switch, identified by its datapath ID, with its
primary flow table (`FlowTableID`). -/
structure Device where
  id : Nat
  flowTableID : Nat
deriving DecidableEq

/-- A `network.Port`: a port of a device (`Device()`, `Number()`). -/
structure Port where
  device : Device
  number : Nat
deriving DecidableEq

/-- A learned host (`network.Node`): a MAC together with the port behind
which it was learned. -/
structure Node where
  mac : MAC
  port : Port
deriving DecidableEq

/-- The parsed Ethernet header of the PACKET_IN (`protocol.Ethernet`):
source MAC, destination MAC and ether type. -/
structure Ethernet where
  srcMAC : MAC
  dstMAC : MAC
  etherType : Nat
deriving DecidableEq

/-- An OpenFlow match as the policy builds it: `NewMatch` yields the
wildcard match, and the policy may set in-port, ether type, source MAC and
destination MAC. -/
structure Match where
  inPort : Option Nat
  etherType : Option Nat
  srcMAC : Option MAC
  dstMAC : Option MAC
deriving DecidableEq

/-- The wildcard match returned by `factory.NewMatch()`. -/
def wildcardMatch : Match :=
  { inPort := none, etherType := none, srcMAC := none, dstMAC := none }

/-- The in-port field of a PACKET_OUT: either the controller pseudo-port
(`SetController`) or a concrete port number (`SetValue`). -/
inductive InPortVal where
  | controller : InPortVal
  | port : Nat → InPortVal
deriving DecidableEq

/-- The out-port of an OUTPUT action: either the FLOOD pseudo-port
(`SetFlood`) or a concrete port number (`SetValue`). -/
inductive OutPortVal where
  | flood : OutPortVal
  | port : Nat → OutPortVal
deriving DecidableEq

/-- A message handed to `SendMessage`, as the l2switch policy builds them:

* `packetOut device inPort action data` — a PACKET_OUT with a single
  OUTPUT action, carrying `data`;
* `flowAdd device tableID idleTimeout priority m outPort` — a
  FLOW_MOD(ADD) whose instruction applies a single OUTPUT(outPort)
  action (built by `installFlow`);
* `flowDelete device cookie cookieMask tableID m` — a FLOW_MOD(DELETE)
  (built by `removeFlow`; the cookie is never set, so it keeps the Go
  zero value 0). -/
inductive Msg where
  | packetOut : Nat → InPortVal → OutPortVal → List Nat → Msg
  | flowAdd : Nat → Nat → Nat → Nat → Match → Nat → Msg
  | flowDelete : Nat → Nat → Nat → Nat → Match → Msg
deriving DecidableEq

/-- The `network.Finder` interface as the policy consumes it:
`Node`, `Path`, `IsEdge`, `Devices`.  A path element `v` is the ordered
pair `(v[0], v[1])` of ports of one traversed device. -/
structure Finder where
  node : MAC → Option Node
  path : Nat → Nat → Option (List (Port × Port))
  isEdge : Port → Bool
  devices : List Device

/-- The environment of a policy run: the finder, the nodes learned behind
each port (`port.Nodes()`), the send oracle (`true` = `SendMessage`
returns nil), and the Ethernet serialiser (`eth.MarshalBinary`). -/
structure Env where
  finder : Finder
  portNodes : Port → List Node
  sendOk : Msg → Bool
  marshal : Ethernet → List Nat

/-- `flood`: PACKET_OUT with in-port = the ingress port number and a
single OUTPUT(FLOOD) action, carrying `packet`, sent to the ingress
device. -/
def flood (ingress : Port) (packet : List Nat) (env : Env) :
    List Msg × Bool :=
  let out := Msg.packetOut ingress.device.id (InPortVal.port ingress.number)
    OutPortVal.flood packet
  ([out], env.sendOk out)

/-- `packetout`: PACKET_OUT with in-port = controller and a single
OUTPUT(egress port) action, carrying `packet`, sent to the egress
device. -/
def packetout (egress : Port) (packet : List Nat) (env : Env) :
    List Msg × Bool :=
  let out := Msg.packetOut egress.device.id InPortVal.controller
    (OutPortVal.port egress.number) packet
  ([out], env.sendOk out)

/-- `isBroadcast`: the destination MAC equals `FF:FF:FF:FF:FF:FF`. -/
def isBroadcast (eth : Ethernet) : Bool :=
  eth.dstMAC = broadcastMAC

/-- `flowParam`: the parameters of one forwarding flow. -/
structure flowParam where
  device : Device
  etherType : Nat
  inPort : Nat
  outPort : Nat
  srcMAC : MAC
  dstMAC : MAC
deriving DecidableEq

/-- The FLOW_MOD(ADD) that `installFlow` builds from `p`: table ID =
`p.device.FlowTableID()`, idle timeout 30, priority 10, match
(in-port, ether type, src MAC, dst MAC), one OUTPUT(p.outPort) action. -/
def forwardFlowMsg (p : flowParam) : Msg :=
  Msg.flowAdd p.device.id p.device.flowTableID 30 10
    { inPort := some p.inPort, etherType := some p.etherType,
      srcMAC := some p.srcMAC, dstMAC := some p.dstMAC }
    p.outPort

/-- The reverse of `forwardFlowMsg p`: source and destination MACs
swapped and in/out ports swapped.  `setFlowRule` never builds it. -/
def reverseFlowMsg (p : flowParam) : Msg :=
  Msg.flowAdd p.device.id p.device.flowTableID 30 10
    { inPort := some p.outPort, etherType := some p.etherType,
      srcMAC := some p.dstMAC, dstMAC := some p.srcMAC }
    p.inPort

/-- `installFlow`: build the ADD flow from `p` and send it to
`p.device`. -/
def installFlow (p : flowParam) (env : Env) : List Msg × Bool :=
  let msg := forwardFlowMsg p
  ([msg], env.sendOk msg)

/-- `setFlowRule`: calls `installFlow` under the comment `// Forward`,
and on success calls `installFlow` again, with the same parameters,
under the comment `// Backward`. -/
def setFlowRule (p : flowParam) (env : Env) : List Msg × Bool :=
  let r1 := installFlow p env
  if r1.2 then
    let r2 := installFlow p env
    (r1.1 ++ r2.1, r2.2)
  else
    (r1.1, false)

/-- `switchParam`: the parameters of one switching decision. -/
structure switchParam where
  ethernet : Ethernet
  ingress : Port
  egress : Port
  rawPacket : List Nat

/-- The loop of `switching` over the path: for each element `v` install
(via `setFlowRule`) a flow on `v[0].Device()` from the running in-port to
`v[0].Number()`, then continue with in-port `v[1].Number()`.  Returns the
trace, the success flag, and the final in-port value. -/
def installPath (eth : Ethernet) (inPort : Nat) (path : List (Port × Port))
    (env : Env) : List Msg × Bool × Nat :=
  match path with
  | [] => ([], true, inPort)
  | v :: rest =>
    let param : flowParam :=
      { device := v.1.device, etherType := eth.etherType, inPort := inPort,
        outPort := v.1.number, srcMAC := eth.srcMAC, dstMAC := eth.dstMAC }
    let r := setFlowRule param env
    if r.2 then
      let rec_ := installPath eth v.2.number rest env
      (r.1 ++ rec_.1, rec_.2.1, rec_.2.2)
    else
      (r.1, false, inPort)

/-- `L2Switch.switching`: look up the path between the ingress and egress
devices; if nil or empty, log and return nil.  Otherwise install flow
rules along the path, a final rule on the egress device, and PACKET_OUT
the packet out of the egress port. -/
def switching (p : switchParam) (env : Env) : List Msg × Bool :=
  match env.finder.path p.ingress.device.id p.egress.device.id with
  | none => ([], true)
  | some path =>
    if path.length = 0 then ([], true)
    else
      let r1 := installPath p.ethernet p.ingress.number path env
      if r1.2.1 then
        let param : flowParam :=
          { device := p.egress.device, etherType := p.ethernet.etherType,
            inPort := r1.2.2, outPort := p.egress.number,
            srcMAC := p.ethernet.srcMAC, dstMAC := p.ethernet.dstMAC }
        let r2 := setFlowRule param env
        if r2.2 then
          let r3 := packetout p.egress p.rawPacket env
          (r1.1 ++ r2.1 ++ r3.1, r3.2)
        else
          (r1.1 ++ r2.1, false)
      else
        (r1.1, false)

/-- `L2Switch.localSwitching`: install one flow on the ingress device from
the ingress port to the egress port, then PACKET_OUT the packet out of
the egress port. -/
def localSwitching (p : switchParam) (env : Env) : List Msg × Bool :=
  let param : flowParam :=
    { device := p.ingress.device, etherType := p.ethernet.etherType,
      inPort := p.ingress.number, outPort := p.egress.number,
      srcMAC := p.ethernet.srcMAC, dstMAC := p.ethernet.dstMAC }
  let r1 := setFlowRule param env
  if r1.2 then
    let r2 := packetout p.egress p.rawPacket env
    (r1.1 ++ r2.1, r2.2)
  else
    (r1.1, false)

/-- `L2Switch.ProcessPacket`: returns the trace, the `drop` result and
`true` when the returned error is nil.  Floods when the destination node
is unknown or the destination is broadcast; otherwise switches locally or
along a path, returning `(false, err)` on a switching error and
`(true, nil)` otherwise. -/
def ProcessPacket (eth : Ethernet) (ingress : Port) (env : Env) :
    List Msg × Bool × Bool :=
  let packet := env.marshal eth
  match env.finder.node eth.dstMAC with
  | none =>
    let r := flood ingress packet env
    (r.1, true, r.2)
  | some dstNode =>
    if isBroadcast eth then
      let r := flood ingress packet env
      (r.1, true, r.2)
    else
      let p : switchParam :=
        { ethernet := eth, ingress := ingress, egress := dstNode.port,
          rawPacket := packet }
      let r := if ingress.device.id = dstNode.port.device.id then
          localSwitching p env
        else
          switching p env
      if r.2 then (r.1, true, true) else (r.1, false, false)

/-- `L2Switch.removeFlow`: FLOW_MOD(DELETE) with cookie mask `1<<63`,
table ID `0xFF` (ALL) and the given match, sent to `d`. -/
def removeFlow (d : Device) (m : Match) (env : Env) : List Msg × Bool :=
  let msg := Msg.flowDelete d.id 0 (1 <<< 63) 0xFF m
  ([msg], env.sendOk msg)

/-- The loop of `removeAllFlows` over the devices: one wildcard DELETE
per device; a failed send is logged and the loop continues. -/
def removeAllFlowsLoop (ds : List Device) (m : Match) (env : Env) :
    List Msg :=
  match ds with
  | [] => []
  | d :: rest => (removeFlow d m env).1 ++ removeAllFlowsLoop rest m env

/-- `L2Switch.removeAllFlows`: a wildcard-match DELETE on every device;
failures are logged per device and the function returns nil. -/
def removeAllFlows (env : Env) : List Msg × Bool :=
  (removeAllFlowsLoop env.finder.devices wildcardMatch env, true)

/-- The loop of `removeFlowRules` over the devices: per device, a DELETE
matching src-MAC = `mac`, then a DELETE matching dst-MAC = `mac`; the
first failed send makes the function return that error at once. -/
def removeFlowRulesLoop (ds : List Device) (mac : MAC) (env : Env) :
    List Msg × Bool :=
  match ds with
  | [] => ([], true)
  | d :: rest =>
    let r1 := removeFlow d { wildcardMatch with srcMAC := some mac } env
    if r1.2 then
      let r2 := removeFlow d { wildcardMatch with dstMAC := some mac } env
      if r2.2 then
        let r3 := removeFlowRulesLoop rest mac env
        (r1.1 ++ r2.1 ++ r3.1, r3.2)
      else
        (r1.1 ++ r2.1, false)
    else
      (r1.1, false)

/-- `L2Switch.removeFlowRules`: for every device, remove the flows whose
match carries `mac` as source MAC and those carrying it as destination
MAC. -/
def removeFlowRules (mac : MAC) (env : Env) : List Msg × Bool :=
  removeFlowRulesLoop env.finder.devices mac env

/-- The loop of `cleanup` over the nodes behind the port: a failed
`removeFlowRules` is logged and the loop continues with the next node. -/
def cleanupNodesLoop (ns : List Node) (env : Env) : List Msg :=
  match ns with
  | [] => []
  | n :: rest => (removeFlowRules n.mac env).1 ++ cleanupNodesLoop rest env

/-- `L2Switch.cleanup`: if the port is an inter-switch edge, remove all
flows from all devices; otherwise remove, for each node learned behind
the port, the flows related to that node's MAC (best effort over the
nodes). -/
def cleanup (port : Port) (env : Env) : List Msg × Bool :=
  if env.finder.isEdge port then
    removeAllFlows env
  else
    (cleanupNodesLoop (env.portNodes port) env, true)

/-- A PORT_STATUS message as `ProcessEvent` consumes it: the reported
port number and the results of `IsPortDown()` (config bit
`OFPPC_PORT_DOWN`) and `IsLinkDown()` (state bit `OFPPS_LINK_DOWN`). -/
structure PortStatus where
  portNumber : Nat
  portDown : Bool
  linkDown : Bool

/-- `L2Switch.ProcessEvent`: on a PORT_STATUS with port-down or
link-down, look the port up on the device (`lookup`) and run `cleanup`;
an unknown port is an error; any other status does nothing. -/
def ProcessEvent (status : PortStatus) (lookup : Nat → Option Port)
    (env : Env) : List Msg × Bool :=
  if status.portDown || status.linkDown then
    match lookup status.portNumber with
    | none => ([], false)
    | some port => cleanup port env
  else
    ([], true)

/-- The error value returned by `Manager.handleHelloMessage` for an
unsupported version (`fmt.Errorf("unsupported OpenFlow protocol
version: ...")`). -/
inductive HelloErr where
  | unsupportedVersion : Nat → HelloErr
deriving DecidableEq

/-- `Manager.handleHelloMessage`: `// We only support OF 1.0` — returns
an error when `msg.Version < 0x01`, and nil otherwise. -/
def handleHelloMessage (Version : Nat) : Except HelloErr Unit :=
  if Version < 0x01 then
    Except.error (HelloErr.unsupportedVersion Version)
  else
    Except.ok ()

/-- `ErrDisconnected` (`errors.New("use of disconnected manager")`). -/
inductive ManagerErr where
  | ErrDisconnected : ManagerErr
deriving DecidableEq

/-- Modelled from the spec: the flow-mod command codes of §4.5
(`OFPFC_*` lives in the openflow package, outside the given sources):
command ∈ \x7bADD, MODIFY, MODIFY_STRICT, DELETE, DELETE_STRICT\x7d. -/
inductive FlowModCommand where
  | OFPFC_ADD : FlowModCommand
  | OFPFC_MODIFY : FlowModCommand
  | OFPFC_MODIFY_STRICT : FlowModCommand
  | OFPFC_DELETE : FlowModCommand
  | OFPFC_DELETE_STRICT : FlowModCommand
deriving DecidableEq

/-- `openflow.FlowModifyFlag`. -/
structure FlowModifyFlag where
  SendFlowRemoved : Bool
  CheckOverlap : Bool
deriving DecidableEq

/-- `device.FlowRule`: the rule a caller asks the manager to install.
`FlowMatch` and `FlowAction` are types of the openflow package the
manager only passes through; they are kept abstract as `M` and `A`. -/
structure FlowRule (M A : Type) where
  Match : M
  Actions : List A
  IdleTimeout : Nat
  HardTimeout : Nat

/-- `openflow.FlowModifyMessage` as the manager populates it.  Fields
the manager leaves at their Go zero value are `none` / `0` / `false` /
`[]`. -/
structure FlowModifyMessage (M A : Type) where
  Match : Option M
  Command : FlowModCommand
  IdleTimeout : Nat
  HardTimeout : Nat
  Flags : FlowModifyFlag
  Actions : List A

/-- The arguments of `Transceiver.SendPacketOutMessage`. -/
structure PacketOutArgs (A : Type) where
  inPort : Nat
  actions : List A
  packet : List Nat

/-- `Manager.InstallFlowRule`: with the transceiver unset
(`r.openflow == nil`, modelled by `connected = false`) it returns
`ErrDisconnected` and hands nothing to the transceiver; otherwise the
result is the `FlowModifyMessage` handed to `SendFlowModifyMessage`:
command ADD, flags SendFlowRemoved and CheckOverlap, and the rule's
match, timeouts and actions passed through. -/
def InstallFlowRule {M A : Type} (connected : Bool) (flow : FlowRule M A) :
    Except ManagerErr (FlowModifyMessage M A) :=
  if !connected then
    Except.error ManagerErr.ErrDisconnected
  else
    Except.ok
      { Match := some flow.Match
        Command := FlowModCommand.OFPFC_ADD
        IdleTimeout := flow.IdleTimeout
        HardTimeout := flow.HardTimeout
        Flags := { SendFlowRemoved := true, CheckOverlap := true }
        Actions := flow.Actions }

/-- `Manager.RemoveFlowRule`: `ErrDisconnected` when the transceiver is
unset; otherwise hands a `FlowModifyMessage` carrying only the match and
command DELETE (all other fields at their zero values) to
`SendFlowModifyMessage`. -/
def RemoveFlowRule {M A : Type} (connected : Bool) (m : M) :
    Except ManagerErr (FlowModifyMessage M A) :=
  if !connected then
    Except.error ManagerErr.ErrDisconnected
  else
    Except.ok
      { Match := some m
        Command := FlowModCommand.OFPFC_DELETE
        IdleTimeout := 0
        HardTimeout := 0
        Flags := { SendFlowRemoved := false, CheckOverlap := false }
        Actions := [] }

/-- `Manager.SendPacketOut`: `ErrDisconnected` when the transceiver is
unset; otherwise hands `(inPort, actions, packet)` unchanged to
`SendPacketOutMessage`. -/
def SendPacketOut {A : Type} (connected : Bool) (inPort : Nat)
    (actions : List A) (packet : List Nat) :
    Except ManagerErr (PacketOutArgs A) :=
  if !connected then
    Except.error ManagerErr.ErrDisconnected
  else
    Except.ok { inPort := inPort, actions := actions, packet := packet }

/-- Modelled from the spec: the switch-side cookie-mask semantics of
FLOW_MOD(DELETE) (the switch is outside the given sources).  A DELETE
with cookie `cookie` and mask `cookieMask` can remove an installed rule
with cookie `ruleCookie` only when the masked cookies agree; the spec's
cookie convention marks table-miss rules by MSB=1. -/
def deleteRemoves (cookie cookieMask ruleCookie : Nat) : Bool :=
  (ruleCookie &&& cookieMask) = (cookie &&& cookieMask)

/-- The DELETE that `removeFlow` sends to device `d` when
`removeFlowRules` matches flows by source MAC `mac`. -/
def srcDeleteMsg (d : Device) (mac : MAC) : Msg :=
  Msg.flowDelete d.id 0 (1 <<< 63) 0xFF { wildcardMatch with srcMAC := some mac }

/-- The DELETE that `removeFlow` sends to device `d` when
`removeFlowRules` matches flows by destination MAC `mac`. -/
def dstDeleteMsg (d : Device) (mac : MAC) : Msg :=
  Msg.flowDelete d.id 0 (1 <<< 63) 0xFF { wildcardMatch with dstMAC := some mac }

/-- Concrete fixtures used to evaluate the model on the literal scenarios
of the specification. -/
def devA : Device := { id := 1, flowTableID := 0 }

/-- A second concrete device. -/
def devB : Device := { id := 2, flowTableID := 0 }

/-- Port 3 on `devA`: the ingress port of the PACKET_IN scenarios. -/
def portA3 : Port := { device := devA, number := 3 }

/-- Port 5 on `devA`: the egress port of the local-switching scenario. -/
def portA5 : Port := { device := devA, number := 5 }

/-- Port 5 on `devB`: the port behind which `macD` is learned in the
inter-switch and cleanup scenarios. -/
def portB5 : Port := { device := devB, number := 5 }

/-- The source MAC S of the scenarios. -/
def macS : MAC := [0, 0, 0, 0, 0, 1]

/-- The destination MAC D of the scenarios. -/
def macD : MAC := [0, 0, 0, 0, 0, 2]

/-- An IPv4 Ethernet frame from S to D. -/
def ethSD : Ethernet := { srcMAC := macS, dstMAC := macD, etherType := 0x0800 }

/-- An IPv4 Ethernet frame from S to the broadcast address. -/
def ethBroadcast : Ethernet :=
  { srcMAC := macS, dstMAC := broadcastMAC, etherType := 0x0800 }

/-- The flow parameters of the local-switching scenario on `devA`:
in-port 3, out-port 5, ether type 0x0800, S → D. -/
def localParam : flowParam :=
  { device := devA, etherType := 0x0800, inPort := 3, outPort := 5,
    srcMAC := macS, dstMAC := macD }

/-- Environment where D is learned on `devA` port 5 (same switch as the
ingress port) and every send succeeds. -/
def envLocal : Env :=
  { finder := { node := fun m => if m = macD then
                  some { mac := macD, port := portA5 } else none,
                path := fun _ _ => none,
                isEdge := fun _ => false,
                devices := [devA] },
    portNodes := fun _ => [],
    sendOk := fun _ => true,
    marshal := fun _ => [0xCA, 0xFE] }

/-- Environment where D is learned on `devB` (a different switch) but the
finder knows no path between `devA` and `devB`. -/
def envNoPath : Env :=
  { finder := { node := fun m => if m = macD then
                  some { mac := macD, port := portB5 } else none,
                path := fun _ _ => none,
                isEdge := fun _ => false,
                devices := [devA, devB] },
    portNodes := fun _ => [],
    sendOk := fun _ => true,
    marshal := fun _ => [0xCA, 0xFE] }

/-- Environment where D is learned on `devB` and the finder returns the
empty path between any two devices. -/
def envEmptyPath : Env :=
  { finder := { node := fun m => if m = macD then
                  some { mac := macD, port := portB5 } else none,
                path := fun _ _ => some [],
                isEdge := fun _ => false,
                devices := [devA, devB] },
    portNodes := fun _ => [],
    sendOk := fun _ => true,
    marshal := fun _ => [0xCA, 0xFE] }

/-- Environment of the host-port-down cleanup scenario: two known
switches, the node D learned behind `devB` port 5, every send
succeeding. -/
def envCleanup : Env :=
  { finder := { node := fun _ => none,
                path := fun _ _ => none,
                isEdge := fun _ => false,
                devices := [devA, devB] },
    portNodes := fun p => if p = portB5 then
                  [{ mac := macD, port := portB5 }] else [],
    sendOk := fun _ => true,
    marshal := fun _ => [] }

/-- The cleanup environment in which sending the very first DELETE of the
node loop (the src-MAC DELETE on `devA`) fails and every other send
succeeds. -/
def envFail : Env :=
  { finder := { node := fun _ => none,
                path := fun _ _ => none,
                isEdge := fun _ => false,
                devices := [devA, devB] },
    portNodes := fun p => if p = portB5 then
                  [{ mac := macD, port := portB5 }] else [],
    sendOk := fun m => m ≠ srcDeleteMsg devA macD,
    marshal := fun _ => [] }

/-- The PORT_STATUS of the cleanup scenarios: port 5 reports
port-down. -/
def statusW : PortStatus := { portNumber := 5, portDown := true, linkDown := false }

/-- The device port lookup of the cleanup scenarios: port number 5 is
`portB5`. -/
def lookupW : Nat → Option Port := fun k => if k = 5 then some portB5 else none

/-- A concrete flow rule for exercising `InstallFlowRule`: match 7, two
actions, idle timeout 30, hard timeout 0 (with `FlowMatch` and
`FlowAction` instantiated by `Nat`). -/
def flowW : FlowRule Nat Nat :=
  { Match := 7, Actions := [1, 2], IdleTimeout := 30, HardTimeout := 0 }

/-- The FLOW_MOD that `InstallFlowRule` builds from `flowW` on a live
session. -/
def msgW : FlowModifyMessage Nat Nat :=
  { Match := some 7, Command := FlowModCommand.OFPFC_ADD,
    IdleTimeout := 30, HardTimeout := 0,
    Flags := { SendFlowRemoved := true, CheckOverlap := true },
    Actions := [1, 2] }

/-- The destination MAC of the match of a FLOW_MOD(ADD) message;
`none` for any other message. -/
def flowAddMatchDstMAC : Msg → Option MAC
  | Msg.flowAdd _ _ _ _ mt _ => mt.dstMAC
  | _ => none

/-- The loop of `removeAllFlows` emits exactly one DELETE per device,
in device order, regardless of send failures. -/
theorem removeAllFlowsLoop_eq_map (ds : List Device) (m : Match) (env : Env) :
    removeAllFlowsLoop ds m env =
      ds.map (fun d => Msg.flowDelete d.id 0 (1 <<< 63) 0xFF m) := by
  induction ds with
  | nil => rfl
  | cons d rest ih => simp [removeAllFlowsLoop, removeFlow, ih]

/-- When every send succeeds, the loop of `removeFlowRules` emits, per
device in order, the src-MAC DELETE then the dst-MAC DELETE, and
succeeds. -/
theorem removeFlowRulesLoop_eq_flatMap (ds : List Device) (mac : MAC) (env : Env)
    (hOk : ∀ m, env.sendOk m = true) :
    removeFlowRulesLoop ds mac env =
      (ds.flatMap (fun d => [srcDeleteMsg d mac, dstDeleteMsg d mac]), true) := by
  induction ds with
  | nil => rfl
  | cons d rest ih =>
    simp [removeFlowRulesLoop, removeFlow, srcDeleteMsg, dstDeleteMsg, hOk, ih]

/-- The node loop of `cleanup` concatenates, node by node, the traces of
`removeFlowRules`, regardless of their success. -/
theorem cleanupNodesLoop_eq_flatMap (ns : List Node) (env : Env) :
    cleanupNodesLoop ns env =
      ns.flatMap (fun n => (removeFlowRules n.mac env).1) := by
  induction ns with
  | nil => rfl
  | cons n rest ih => simp [cleanupNodesLoop, ih]

/-- Whatever the send oracle does, the trace of the `removeFlowRules`
loop is an in-order fragment of the full per-device DELETE list. -/
theorem removeFlowRulesLoop_trace_sublist (ds : List Device) (mac : MAC)
    (env : Env) :
    ((removeFlowRulesLoop ds mac env).1).Sublist
      (ds.flatMap (fun d => [srcDeleteMsg d mac, dstDeleteMsg d mac])) := by
  induction ds with
  | nil => simp [removeFlowRulesLoop]
  | cons d rest ih =>
    simp only [removeFlowRulesLoop, removeFlow, List.flatMap_cons,
      srcDeleteMsg, dstDeleteMsg, List.cons_append, List.nil_append]
    split
    · split
      · exact List.Sublist.cons₂ _ (List.Sublist.cons₂ _ ih)
      · exact List.Sublist.cons₂ _ (List.Sublist.cons₂ _ (List.nil_sublist _))
    · exact List.Sublist.cons₂ _ (List.nil_sublist _)

/-- Every message of the `removeFlowRules` loop trace is a
FLOW_MOD(DELETE) with cookie 0, cookie mask `1<<63` and table ID
`0xFF`. -/
theorem mem_removeFlowRulesLoop_shape (ds : List Device) (mac : MAC)
    (env : Env) (x : Msg)
    (hx : x ∈ (removeFlowRulesLoop ds mac env).1) :
    ∃ dev mt, x = Msg.flowDelete dev 0 (1 <<< 63) 0xFF mt := by
  have hx2 := (removeFlowRulesLoop_trace_sublist ds mac env).subset hx
  rcases List.mem_flatMap.mp hx2 with ⟨d, _, hd⟩
  rcases List.mem_cons.mp hd with rfl | hd
  · exact ⟨d.id, _, rfl⟩
  · rcases List.mem_singleton.mp hd with rfl
    exact ⟨d.id, _, rfl⟩

/-- Every message of the `cleanup` node loop trace is a FLOW_MOD(DELETE)
with cookie 0, cookie mask `1<<63` and table ID `0xFF`. -/
theorem mem_cleanupNodesLoop_shape (ns : List Node) (env : Env) (x : Msg)
    (hx : x ∈ cleanupNodesLoop ns env) :
    ∃ dev mt, x = Msg.flowDelete dev 0 (1 <<< 63) 0xFF mt := by
  induction ns with
  | nil => simp [cleanupNodesLoop] at hx
  | cons n rest ih =>
    simp only [cleanupNodesLoop, List.mem_append] at hx
    rcases hx with hx | hx
    · exact mem_removeFlowRulesLoop_shape _ _ _ _ hx
    · exact ih hx

/-- A DELETE with cookie 0 and cookie mask `1<<63` never matches a rule
cookie whose most significant (63rd) bit is set. -/
theorem deleteRemoves_spares_msb (rc : Nat) (h : Nat.testBit rc 63 = true) :
    deleteRemoves 0 (1 <<< 63) rc = false := by
  have h1 : (1 : Nat) <<< 63 = 2 ^ 63 := Nat.one_shiftLeft 63
  simp only [deleteRemoves, h1, Nat.zero_and, decide_eq_false_iff_not]
  rw [Nat.and_two_pow, h]
  simp

/-- A node's `removeFlowRules` trace appears, contiguously and in order,
inside the node loop trace of `cleanup`, whatever happened to the other
nodes. -/
theorem removeFlowRules_sublist_cleanupNodesLoop (ns : List Node)
    (env : Env) (n : Node) (hn : n ∈ ns) :
    ((removeFlowRules n.mac env).1).Sublist (cleanupNodesLoop ns env) := by
  induction ns with
  | nil => cases hn
  | cons m rest ih =>
    simp only [cleanupNodesLoop]
    rcases List.mem_cons.mp hn with rfl | h
    · exact List.sublist_append_left _ _
    · exact (ih h).trans (List.sublist_append_right _ _)

/-- C1, counterexample: with D learned on device 2 and the PACKET_IN on
device 1 port 3, and the finder knowing no path from 1 to 2,
`ProcessPacket` forwards nothing and returns no error — but `drop` is
`true`, not `false` as the claim states. -/
theorem processPacket_no_path_cex :
    ProcessPacket ethSD portA3 envNoPath = ([], true, true) := by decide

/-- C1 (amended): for every PACKET_IN whose destination MAC is known,
not broadcast, learned on a different device than the ingress, and whose
path query is nil or empty, `ProcessPacket` forwards nothing, installs no
flow, and returns drop=true with no error. -/
theorem processPacket_no_path_drops (eth : Ethernet) (ingress : Port)
    (env : Env) (node : Node)
    (hNode : env.finder.node eth.dstMAC = some node)
    (hBC : isBroadcast eth = false)
    (hDiff : ¬ ingress.device.id = node.port.device.id)
    (hPath : env.finder.path ingress.device.id node.port.device.id = none ∨
      env.finder.path ingress.device.id node.port.device.id = some []) :
    ProcessPacket eth ingress env = ([], true, true) := by
  rcases hPath with hP | hP <;>
    simp [ProcessPacket, switching, hNode, hBC, hDiff, hP]

/-- C1, witness: the amended theorem applied at the concrete scenario in
which the finder returns the empty path between devices 1 and 2. -/
theorem processPacket_no_path_drops_witness :
    (envEmptyPath.finder.node ethSD.dstMAC =
        some { mac := macD, port := portB5 } ∧
      isBroadcast ethSD = false ∧
      ¬ portA3.device.id = portB5.device.id ∧
      envEmptyPath.finder.path portA3.device.id portB5.device.id = some []) ∧
    ProcessPacket ethSD portA3 envEmptyPath = ([], true, true) :=
  ⟨⟨by decide, by decide, by decide, by decide⟩,
    processPacket_no_path_drops ethSD portA3 envEmptyPath
      { mac := macD, port := portB5 } (by decide) (by decide) (by decide)
      (Or.inr (by decide))⟩

/-- C2: evaluating the code on the spec's local-switching scenario
(destination learned on the same device, in-port 3, out-port 5): the code
emits two identical FLOW_MOD(ADD)s — `setFlowRule` installs the forward
flow a second time under its `// Backward` comment — before the
PACKET_OUT, where the claim (and the spec's step 3) expects exactly
one. -/
theorem processPacket_local_two_flowmods :
    ProcessPacket ethSD portA3 envLocal =
      ([forwardFlowMsg localParam, forwardFlowMsg localParam,
        Msg.packetOut devA.id InPortVal.controller (OutPortVal.port 5)
          [0xCA, 0xFE]],
        true, true) := by decide

/-- C3: `setFlowRule` invokes `installFlow` twice with the same
parameters, so (when sends succeed) its trace is the same forward
FLOW_MOD(ADD) twice, and the reverse flow (swapped MACs and ports) is
never installed. -/
theorem setFlowRule_double_forward_no_reverse (p : flowParam) (env : Env)
    (hOk : env.sendOk (forwardFlowMsg p) = true)
    (hNe : ¬ p.srcMAC = p.dstMAC) :
    setFlowRule p env = ([forwardFlowMsg p, forwardFlowMsg p], true) ∧
      reverseFlowMsg p ∉ (setFlowRule p env).1 := by
  have h1 : setFlowRule p env = ([forwardFlowMsg p, forwardFlowMsg p], true) := by
    simp [setFlowRule, installFlow, hOk]
  refine ⟨h1, ?_⟩
  rw [h1]
  intro hmem
  have heq : reverseFlowMsg p = forwardFlowMsg p := by
    rcases List.mem_cons.mp hmem with h | h
    · exact h
    · exact List.mem_singleton.mp h
  have hdst := congrArg flowAddMatchDstMAC heq
  simp only [reverseFlowMsg, forwardFlowMsg, flowAddMatchDstMAC,
    Option.some.injEq] at hdst
  exact hNe hdst

/-- C3, witness: the double-install theorem applied at the concrete
local-switching flow parameters. -/
theorem setFlowRule_double_forward_no_reverse_witness :
    (envLocal.sendOk (forwardFlowMsg localParam) = true ∧
      ¬ localParam.srcMAC = localParam.dstMAC) ∧
    (setFlowRule localParam envLocal =
        ([forwardFlowMsg localParam, forwardFlowMsg localParam], true) ∧
      reverseFlowMsg localParam ∉ (setFlowRule localParam envLocal).1) :=
  ⟨⟨by decide, by decide⟩,
    setFlowRule_double_forward_no_reverse localParam envLocal
      (by decide) (by decide)⟩

/-- C4: on a PACKET_IN whose destination MAC is broadcast or has no
learned node, `ProcessPacket` emits exactly one PACKET_OUT on the
ingress device with a single OUTPUT(FLOOD) action carrying the original
packet (so no flow is installed) and returns drop=true. -/
theorem processPacket_flood_broadcast_or_unknown (eth : Ethernet)
    (ingress : Port) (env : Env)
    (h : env.finder.node eth.dstMAC = none ∨ isBroadcast eth = true) :
    (ProcessPacket eth ingress env).1 =
      [Msg.packetOut ingress.device.id (InPortVal.port ingress.number)
        OutPortVal.flood (env.marshal eth)] ∧
    (ProcessPacket eth ingress env).2.1 = true := by
  rcases h with h | h
  · simp [ProcessPacket, flood, h]
  · cases hn : env.finder.node eth.dstMAC with
    | none => simp [ProcessPacket, flood, hn]
    | some n => simp [ProcessPacket, flood, hn, h]

/-- C4, witness: the flood theorem applied to a broadcast frame arriving
on device 1 port 3. -/
theorem processPacket_flood_broadcast_or_unknown_witness :
    (envLocal.finder.node ethBroadcast.dstMAC = none ∨
      isBroadcast ethBroadcast = true) ∧
    ((ProcessPacket ethBroadcast portA3 envLocal).1 =
      [Msg.packetOut portA3.device.id (InPortVal.port portA3.number)
        OutPortVal.flood (envLocal.marshal ethBroadcast)] ∧
    (ProcessPacket ethBroadcast portA3 envLocal).2.1 = true) :=
  ⟨Or.inr (by decide),
    processPacket_flood_broadcast_or_unknown ethBroadcast portA3 envLocal
      (Or.inr (by decide))⟩

/-- C5: every FLOW_MOD(DELETE) emitted by the cleanup path — by
`removeAllFlows`, by `removeFlowRules`, or by `cleanup` itself — carries
cookie 0, cookie mask exactly `1<<63` and table ID `0xFF`, and
consequently (by the spec's cookie-mask delete semantics) such a delete
never removes a rule whose cookie has its most significant bit set. -/
theorem cleanup_deletes_cookie_safe (env : Env) (port : Port) (mac : MAC)
    (x : Msg)
    (h : x ∈ (removeAllFlows env).1 ∨ x ∈ (removeFlowRules mac env).1 ∨
      x ∈ (cleanup port env).1) :
    (∃ dev mt, x = Msg.flowDelete dev 0 (1 <<< 63) 0xFF mt) ∧
      ∀ rc, Nat.testBit rc 63 = true →
        deleteRemoves 0 (1 <<< 63) rc = false := by
  refine ⟨?_, fun rc hrc => deleteRemoves_spares_msb rc hrc⟩
  have hAll : ∀ y, y ∈ (removeAllFlows env).1 →
      ∃ dev mt, y = Msg.flowDelete dev 0 (1 <<< 63) 0xFF mt := by
    intro y hy
    rw [removeAllFlows, removeAllFlowsLoop_eq_map] at hy
    obtain ⟨d, _, rfl⟩ := List.mem_map.mp hy
    exact ⟨d.id, _, rfl⟩
  rcases h with h | h | h
  · exact hAll x h
  · exact mem_removeFlowRulesLoop_shape _ _ _ _ h
  · rw [cleanup] at h
    by_cases hEdge : env.finder.isEdge port = true
    · rw [if_pos hEdge] at h
      exact hAll x h
    · rw [if_neg hEdge] at h
      exact mem_cleanupNodesLoop_shape _ _ _ h
/-- C5, witness: the cookie-safety theorem applied to the src-MAC DELETE
that `removeFlowRules` sends to device 1 in the concrete cleanup
environment. -/
theorem cleanup_deletes_cookie_safe_witness :
    (srcDeleteMsg devA macD ∈ (removeAllFlows envCleanup).1 ∨
      srcDeleteMsg devA macD ∈ (removeFlowRules macD envCleanup).1 ∨
      srcDeleteMsg devA macD ∈ (cleanup portB5 envCleanup).1) ∧
    ((∃ dev mt, srcDeleteMsg devA macD =
        Msg.flowDelete dev 0 (1 <<< 63) 0xFF mt) ∧
      ∀ rc, Nat.testBit rc 63 = true →
        deleteRemoves 0 (1 <<< 63) rc = false) :=
  ⟨Or.inr (Or.inl (by decide)),
    cleanup_deletes_cookie_safe envCleanup portB5 macD
      (srcDeleteMsg devA macD) (Or.inr (Or.inl (by decide)))⟩

/-- C6: on a PORT_STATUS reporting port-down or link-down for a known
port, with every send succeeding: if the port is an inter-switch edge
the cleanup emits exactly one wildcard DELETE per known switch; otherwise
it emits, for each node learned behind the port and on every known
switch, exactly two DELETEs — one matching src-MAC, one matching dst-MAC
of the node. -/
theorem processEvent_cleanup_emission (status : PortStatus)
    (lookup : Nat → Option Port) (port : Port) (env : Env)
    (hDown : status.portDown = true ∨ status.linkDown = true)
    (hLookup : lookup status.portNumber = some port)
    (hOk : ∀ m, env.sendOk m = true) :
    (env.finder.isEdge port = true →
      (ProcessEvent status lookup env).1 =
        env.finder.devices.map
          (fun d => Msg.flowDelete d.id 0 (1 <<< 63) 0xFF wildcardMatch)) ∧
    (env.finder.isEdge port = false →
      (ProcessEvent status lookup env).1 =
        (env.portNodes port).flatMap
          (fun n => env.finder.devices.flatMap
            (fun d => [srcDeleteMsg d n.mac, dstDeleteMsg d n.mac]))) := by
  have hcond : (status.portDown || status.linkDown) = true := by
    rcases hDown with h | h <;> simp [h]
  constructor
  · intro hEdge
    simp [ProcessEvent, hcond, hLookup, cleanup, hEdge, removeAllFlows,
      removeAllFlowsLoop_eq_map]
  · intro hEdge
    simp [ProcessEvent, hcond, hLookup, cleanup, hEdge,
      cleanupNodesLoop_eq_flatMap, removeFlowRules,
      removeFlowRulesLoop_eq_flatMap, hOk]

/-- C6, witness: the emission theorem applied to the concrete
host-port-down scenario (node D behind device 2 port 5, two known
switches, all sends succeeding). -/
theorem processEvent_cleanup_emission_witness :
    ((statusW.portDown = true ∨ statusW.linkDown = true) ∧
      lookupW statusW.portNumber = some portB5 ∧
      ∀ m, envCleanup.sendOk m = true) ∧
    ((envCleanup.finder.isEdge portB5 = true →
      (ProcessEvent statusW lookupW envCleanup).1 =
        envCleanup.finder.devices.map
          (fun d => Msg.flowDelete d.id 0 (1 <<< 63) 0xFF wildcardMatch)) ∧
    (envCleanup.finder.isEdge portB5 = false →
      (ProcessEvent statusW lookupW envCleanup).1 =
        (envCleanup.portNodes portB5).flatMap
          (fun n => envCleanup.finder.devices.flatMap
            (fun d => [srcDeleteMsg d n.mac, dstDeleteMsg d n.mac])))) :=
  ⟨⟨Or.inl rfl, rfl, fun _ => rfl⟩,
    processEvent_cleanup_emission statusW lookupW portB5 envCleanup
      (Or.inl rfl) rfl (fun _ => rfl)⟩

/-- C7, counterexample: with two known switches and node D behind the
port, failing the very first DELETE (src-MAC on device 1) leaves a
cleanup trace with that single message — the dst-MAC DELETE on device 1
and both DELETEs on device 2 are never attempted, so a single send
failure does abort the rest of that node's per-switch loop. -/
theorem cleanup_send_failure_cex :
    cleanup portB5 envFail = ([srcDeleteMsg devA macD], true) := by decide

/-- C7 (amended): cleanup is best-effort per node, not per send: a DELETE
failure inside `removeFlowRules` aborts the remaining deletes for that
node, but each node's trace still appears in the cleanup trace whatever
happens to other nodes, `cleanup` itself always returns nil, and (edge
case) `removeAllFlows` attempts its wildcard DELETE on every switch
regardless of send failures. -/
theorem cleanup_best_effort_per_node (env : Env) (port : Port) (n : Node)
    (hEdge : env.finder.isEdge port = false)
    (hn : n ∈ env.portNodes port) :
    (cleanup port env).2 = true ∧
    ((removeFlowRules n.mac env).1).Sublist (cleanup port env).1 ∧
    (removeAllFlows env).1 =
      env.finder.devices.map
        (fun d => Msg.flowDelete d.id 0 (1 <<< 63) 0xFF wildcardMatch) := by
  refine ⟨?_, ?_, ?_⟩
  · simp [cleanup, hEdge]
  · simp only [cleanup, hEdge, Bool.false_eq_true, if_false]
    exact removeFlowRules_sublist_cleanupNodesLoop _ _ _ hn
  · rw [removeAllFlows, removeAllFlowsLoop_eq_map]

/-- C7, witness: the best-effort theorem applied to the failing
environment of the counterexample. -/
theorem cleanup_best_effort_per_node_witness :
    (envFail.finder.isEdge portB5 = false ∧
      ({ mac := macD, port := portB5 } : Node) ∈ envFail.portNodes portB5) ∧
    ((cleanup portB5 envFail).2 = true ∧
      ((removeFlowRules macD envFail).1).Sublist (cleanup portB5 envFail).1 ∧
      (removeAllFlows envFail).1 =
        envFail.finder.devices.map
          (fun d => Msg.flowDelete d.id 0 (1 <<< 63) 0xFF wildcardMatch)) :=
  ⟨⟨rfl, by decide⟩,
    cleanup_best_effort_per_node envFail portB5
      { mac := macD, port := portB5 } rfl (by decide)⟩

/-- C8, counterexample: the HELLO handler accepts wire version 4 — the
check only rejects versions below 1 — so the claim that a HELLO with
version 4 is rejected is false. -/
theorem handleHello_version4_accepted_cex :
    handleHelloMessage 4 = Except.ok () := rfl

/-- C8 (amended): the HELLO handler rejects a HELLO with wire version 0
(returning an error that fails the session), accepts version 1, and also
accepts version 4: every version at least 1 passes the check. -/
theorem handleHello_version_check :
    handleHelloMessage 0 =
        Except.error (HelloErr.unsupportedVersion 0) ∧
      handleHelloMessage 1 = Except.ok () ∧
      handleHelloMessage 4 = Except.ok () :=
  ⟨rfl, rfl, rfl⟩

/-- C9: after the session has ended (transceiver unset), each of the
Manager send paths — `InstallFlowRule`, `RemoveFlowRule`,
`SendPacketOut` — returns the Disconnected error, handing nothing to the
transceiver. -/
theorem manager_send_paths_disconnected (M A : Type) (flow : FlowRule M A)
    (m : M) (inPort : Nat) (actions : List A) (packet : List Nat) :
    InstallFlowRule false flow =
        Except.error ManagerErr.ErrDisconnected ∧
      @RemoveFlowRule M A false m =
        Except.error ManagerErr.ErrDisconnected ∧
      SendPacketOut false inPort actions packet =
        Except.error ManagerErr.ErrDisconnected :=
  ⟨rfl, rfl, rfl⟩

/-- C10: every FLOW_MOD built by `Manager.InstallFlowRule` has command
ADD, flags SendFlowRemoved and CheckOverlap set, and carries the
supplied rule's match, action list, idle timeout and hard timeout
unchanged. -/
theorem installFlowRule_builds_add (M A : Type) (connected : Bool)
    (flow : FlowRule M A) (msg : FlowModifyMessage M A)
    (h : InstallFlowRule connected flow = Except.ok msg) :
    msg.Command = FlowModCommand.OFPFC_ADD ∧
      msg.Flags.SendFlowRemoved = true ∧
      msg.Flags.CheckOverlap = true ∧
      msg.Match = some flow.Match ∧
      msg.Actions = flow.Actions ∧
      msg.IdleTimeout = flow.IdleTimeout ∧
      msg.HardTimeout = flow.HardTimeout := by
  cases connected with
  | false => simp [InstallFlowRule] at h
  | true =>
    simp only [InstallFlowRule, Bool.not_true, Bool.false_eq_true, if_false,
      Except.ok.injEq] at h
    subst h
    exact ⟨rfl, rfl, rfl, rfl, rfl, rfl, rfl⟩

/-- C10, witness: the theorem applied to the concrete connected install
of `flowW`, whose built FLOW_MOD is `msgW`. -/
theorem installFlowRule_builds_add_witness :
    InstallFlowRule true flowW = Except.ok msgW ∧
    (msgW.Command = FlowModCommand.OFPFC_ADD ∧
      msgW.Flags.SendFlowRemoved = true ∧
      msgW.Flags.CheckOverlap = true ∧
      msgW.Match = some flowW.Match ∧
      msgW.Actions = flowW.Actions ∧
      msgW.IdleTimeout = flowW.IdleTimeout ∧
      msgW.HardTimeout = flowW.HardTimeout) :=
  ⟨rfl, installFlowRule_builds_add Nat Nat true flowW msgW rfl⟩

end Cherry
